import Mathlib

/-!
# Verification of the `serde-strings` textual adapter

Shallow embedding of `src/lib.rs` of the `serde-strings` crate: the generic
wrapper `SerdeStr<T>` with its accessor methods, its `From<T>` conversion,
its `Deserialize` implementation (extract a string from the host framework,
parse it with `T`'s `FromStr`, surface parse failures through the framework's
`Error::custom` channel) and its `Serialize` implementation (format the inner
value with `T`'s `Display` and hand that one string to the serializer sink).

Generic capabilities of the inner Rust type `T` are passed as explicit
function arguments:
  * `fromStr    : String → Except E T`  embeds `T : FromStr` with `Err = E`;
  * `displayErr : E → String`           embeds `<T as FromStr>::Err : Display`;
  * `display    : T → String`           embeds `T : Display`
    (`self.value.to_string()` is `display self.value`).

The host deserialization framework is embedded by its observable effect on
this adapter: `String::deserialize(de)` either yields the extracted plain
string or fails with a framework error, so a deserializer is embedded as a
value of `Except (DeError) String`.  The serializer is embedded as the sink
function that receives the single emitted string scalar and produces the
framework's `Result<S::Ok, S::Error>`.
-/

/-- The error taxonomy of the host deserialization framework, as far as this
adapter can observe it: `custom` is the `serde::de::Error::custom` channel
used for domain-level failures, while `frameworkError` stands for every
framework-level error (wrong scalar kind, malformed input, ...), which this
adapter never constructs itself. -/
inductive DeError where
  | custom (msg : String)
  | frameworkError (msg : String)
deriving DecidableEq, Repr

/-- `pub struct SerdeStr<T> { pub value: T }` — the generic wrapper holding
exactly one owned inner value. -/
structure SerdeStr (T : Type) where
  value : T
deriving DecidableEq, Repr

namespace SerdeStr

/-- `pub fn value(&self) -> &T { &self.value }` — read-only view of the inner
value. -/
def value' {T : Type} (a : SerdeStr T) : T :=
  a.value

/-- `pub fn value_mut(&mut self) -> &mut T` — a mutable reference to the
single field.  A `&mut` reference is embedded as a lens: writing `t` through
the reference produced by `value_mut` leaves the adapter in the state below
(the field `value` is replaced, nothing else exists to change). -/
def value_mut_write {T : Type} (a : SerdeStr T) (t : T) : SerdeStr T :=
  { a with value := t }

/-- `pub fn set_value(&mut self, t: T) { self.value = t; }` — replaces the
inner value. -/
def set_value {T : Type} (a : SerdeStr T) (t : T) : SerdeStr T :=
  { a with value := t }

/-- `pub fn unwrap(self) -> T { self.value }` — consumes the adapter and
moves out the inner value. -/
def unwrap {T : Type} (a : SerdeStr T) : T :=
  a.value

/-- `impl<T> From<T> for SerdeStr<T>`: `fn from(value: T) -> Self { Self { value } }`. -/
def fromValue {T : Type} (value : T) : SerdeStr T :=
  { value := value }

/-- `#[derive(Default)]` on a one-field struct expands to
`Self { value: Default::default() }`; the inner default is the argument. -/
def default' {T : Type} (dflt : T) : SerdeStr T :=
  { value := dflt }

/-- `#[derive(PartialEq, Eq)]` on `SerdeStr<T>` expands to field-wise
equality, i.e. comparison of the single field `value` with `T`'s own `eq`. -/
def beq {T : Type} (eqT : T → T → Bool) (a b : SerdeStr T) : Bool :=
  eqT a.value b.value

/-- `#[derive(PartialOrd, Ord)]` on `SerdeStr<T>` expands to the
lexicographic comparison of the fields, which for the single field `value`
is `T`'s own `cmp` applied to the inner values. -/
def cmp {T : Type} (cmpT : T → T → Ordering) (a b : SerdeStr T) : Ordering :=
  cmpT a.value b.value

/-- `#[derive(Hash)]` on `SerdeStr<T>` expands to hashing each field in
order into the hasher state: `self.value.hash(state)`.  The hasher state is
an arbitrary type `σ` and `T`'s `Hash` impl is the state transformer
`hashT`. -/
def hashWith {T σ : Type} (hashT : T → σ → σ) (a : SerdeStr T) (st : σ) : σ :=
  hashT a.value st

/-- The `Deserialize` impl:
```
fn deserialize<D>(de: D) -> Result<Self, D::Error> {
    Ok(Self { value: String::deserialize(de)?.parse().map_err(|err| Error::custom(err))? })
}
```
`de` is embedded by the outcome of `String::deserialize(de)`. -/
def deserialize {T E : Type} (fromStr : String → Except E T)
    (displayErr : E → String) (de : Except DeError String) :
    Except DeError (SerdeStr T) := do
  let s ← de
  match fromStr s with
  | Except.ok v => Except.ok { value := v }
  | Except.error err => Except.error (DeError.custom (displayErr err))

/-- The `Serialize` impl:
```
fn serialize<S>(&self, ser: S) -> Result<S::Ok, S::Error> {
    self.value.to_string().serialize(ser)
}
```
`ser` is embedded as the sink receiving the one emitted string scalar and
producing the framework's result of type `ρ`. -/
def serialize {T ρ : Type} (display : T → String) (a : SerdeStr T)
    (ser : String → ρ) : ρ :=
  ser (display a.value)

/-- Decode-after-encode composition used by the round-trip law: encoding with
the identity sink captures the emitted string, which is then fed to
`deserialize` as the successfully extracted string. -/
def roundTrip {T E : Type} (fromStr : String → Except E T)
    (displayErr : E → String) (display : T → String) (a : SerdeStr T) :
    Except DeError (SerdeStr T) :=
  deserialize fromStr displayErr (Except.ok (serialize display a id))

end SerdeStr

/-! ## Reduction lemmas for the embedded `deserialize` -/

/-- When the framework's string extraction succeeds, `deserialize` is the
single parse attempt on the extracted string. -/
theorem SerdeStr.deserialize_ok {T E : Type} (fromStr : String → Except E T)
    (displayErr : E → String) (s : String) :
    SerdeStr.deserialize fromStr displayErr (Except.ok s) =
      match fromStr s with
      | Except.ok v => Except.ok { value := v }
      | Except.error err => Except.error (DeError.custom (displayErr err)) :=
  rfl

/-- When the framework's string extraction fails, `deserialize` propagates
that failure unchanged (the `?` operator). -/
theorem SerdeStr.deserialize_error {T E : Type} (fromStr : String → Except E T)
    (displayErr : E → String) (f : DeError) :
    SerdeStr.deserialize fromStr displayErr (Except.error f) =
      Except.error f :=
  rfl

/-! ## Concrete inner-type instances used as test points -/

/-- A `Display` instance rendering every `Bool` as the same string. -/
def constDisplay : Bool → String := fun _ => "x"

/-- A `FromStr` instance accepting every string but always producing
`false`; its formatting output under `constDisplay` is always *accepted*,
yet parsing does not recover the formatted value. -/
def constFromStr : String → Except String Bool := fun _ => Except.ok false

/-- The standard-library-style `Display` for `Bool`. -/
def boolDisplay : Bool → String := fun b => if b then "true" else "false"

/-- The standard-library-style `FromStr` for `Bool`: a genuine left inverse
of `boolDisplay`. -/
def boolFromStr : String → Except String Bool := fun s =>
  if s = "true" then Except.ok true
  else if s = "false" then Except.ok false
  else Except.error "not a bool"

/-- An inner type whose parser rejects every string with the fixed error
message used in the spec's fourth concrete scenario. -/
def badFormat : String → Except String Bool := fun _ => Except.error "bad format"

/-! ## Claims -/

/-- Claim C1, as stated, is false: with `constDisplay`/`constFromStr` the
formatting output is always accepted by the parser (the "stable" hypothesis
as literally worded), yet decoding the encoding of the adapter wrapping
`true` yields the adapter wrapping `false`, not an equal inner value. -/
theorem C1_counterexample :
    (∀ v : Bool, (constFromStr (constDisplay v)).isOk = true) ∧
    SerdeStr.roundTrip constFromStr id constDisplay { value := true } ≠
      Except.ok { value := true } :=
  ⟨fun _ => rfl, by
    intro h
    simp [SerdeStr.roundTrip, SerdeStr.serialize, SerdeStr.deserialize_ok,
      constFromStr, constDisplay] at h⟩

/-- Claim C1 (amended): for every inner type whose parsing is a left
inverse of its formatting (parsing the formatted output of any value yields
back that very value), decoding the string produced by encoding an adapter
yields that same adapter. -/
theorem C1_round_trip {T E : Type} (fromStr : String → Except E T)
    (displayErr : E → String) (display : T → String)
    (h : ∀ v : T, fromStr (display v) = Except.ok v) (a : SerdeStr T) :
    SerdeStr.roundTrip fromStr displayErr display a = Except.ok a := by
  simp [SerdeStr.roundTrip, SerdeStr.serialize, SerdeStr.deserialize_ok, h]

/-- Witness for C1: the round-trip law applied at the stable instance
`boolFromStr`/`boolDisplay` and the adapter wrapping `true`. -/
theorem C1_round_trip_witness :
    (∀ v : Bool, boolFromStr (boolDisplay v) = Except.ok v) ∧
    SerdeStr.roundTrip boolFromStr id boolDisplay { value := true } =
      Except.ok { value := true } :=
  ⟨by intro v; cases v <;> rfl,
    C1_round_trip boolFromStr id boolDisplay
      (by intro v; cases v <;> rfl) { value := true }⟩

/-- Claim C2: when the inner parser rejects the extracted string with error
`e`, decoding fails with the framework's *custom* error carrying exactly the
stringified form of `e` — never a framework-level error and never a
success. -/
theorem C2_error_surfacing {T E : Type} (fromStr : String → Except E T)
    (displayErr : E → String) (s : String) (e : E)
    (h : fromStr s = Except.error e) :
    SerdeStr.deserialize fromStr displayErr (Except.ok s) =
      Except.error (DeError.custom (displayErr e)) := by
  simp [SerdeStr.deserialize_ok, h]

/-- Witness for C2: the always-rejecting parser with message `bad format`
makes decoding fail with the custom error carrying that very message. -/
theorem C2_error_surfacing_witness :
    badFormat "abc" = Except.error "bad format" ∧
    SerdeStr.deserialize badFormat id (Except.ok "abc") =
      Except.error (DeError.custom "bad format") :=
  ⟨rfl, C2_error_surfacing badFormat id "abc" "bad format" rfl⟩

/-- Claim C3: constructing an adapter from a value `v` via the `From`
conversion and then unwrapping it returns `v` itself, and the stored inner
value is `v` (identity, not a copy-and-mutate; the conversion is a total
function, hence no fallible path). -/
theorem C3_from_unwrap {T : Type} (v : T) :
    (SerdeStr.fromValue v).unwrap = v ∧ (SerdeStr.fromValue v).value = v :=
  ⟨rfl, rfl⟩

/-- Claim C4: decoding depends only on the extracted string — two
deserializers from which the framework extracts the same plain string
decode to the same result. -/
theorem C4_decode_determined_by_string {T E : Type}
    (fromStr : String → Except E T) (displayErr : E → String)
    (de₁ de₂ : Except DeError String) (s : String)
    (h₁ : de₁ = Except.ok s) (h₂ : de₂ = Except.ok s) :
    SerdeStr.deserialize fromStr displayErr de₁ =
      SerdeStr.deserialize fromStr displayErr de₂ := by
  rw [h₁, h₂]

/-- Witness for C4: two (syntactically equal) extractions of the string
`abc` decode identically under `boolFromStr`. -/
theorem C4_decode_determined_by_string_witness :
    (Except.ok "abc" : Except DeError String) = Except.ok "abc" ∧
    SerdeStr.deserialize boolFromStr id (Except.ok "abc") =
      SerdeStr.deserialize boolFromStr id (Except.ok "abc") :=
  ⟨rfl, C4_decode_determined_by_string boolFromStr id
    (Except.ok "abc") (Except.ok "abc") "abc" rfl rfl⟩

/-- Claim C5: encoding formats the inner value with the inner type's own
`Display`, hands exactly that one string to the serializer sink, and returns
the sink's signal unchanged — in particular the adapter synthesizes no error
of its own. -/
theorem C5_encode {T ρ : Type} (display : T → String) (a : SerdeStr T)
    (ser : String → ρ) :
    SerdeStr.serialize display a ser = ser (display a.value) :=
  rfl

/-- Claim C6: decoding is atomic and makes a single parse attempt with
nothing swallowed: either the framework's string extraction fails and that
error is surfaced unchanged, or the extracted string parses and the adapter
wrapping exactly the parsed value is produced, or the parse fails and the
custom error carrying that parse error is surfaced; no other outcome
exists. -/
theorem C6_atomic_single_attempt {T E : Type} (fromStr : String → Except E T)
    (displayErr : E → String) (de : Except DeError String) :
    (∃ f, de = Except.error f ∧
      SerdeStr.deserialize fromStr displayErr de = Except.error f) ∨
    (∃ s v, de = Except.ok s ∧ fromStr s = Except.ok v ∧
      SerdeStr.deserialize fromStr displayErr de = Except.ok { value := v }) ∨
    (∃ s e, de = Except.ok s ∧ fromStr s = Except.error e ∧
      SerdeStr.deserialize fromStr displayErr de =
        Except.error (DeError.custom (displayErr e))) := by
  cases de with
  | error f => exact Or.inl ⟨f, rfl, rfl⟩
  | ok s =>
    cases h : fromStr s with
    | ok v =>
      exact Or.inr (Or.inl ⟨s, v, rfl, h, by simp [SerdeStr.deserialize_ok, h]⟩)
    | error e =>
      exact Or.inr (Or.inr ⟨s, e, rfl, h, by simp [SerdeStr.deserialize_ok, h]⟩)

/-- Claim C7: the derived equality, ordering and hashing of the adapter are
pass-through to the inner value: adapters are equal iff their inner values
are, the derived comparison is the inner comparison of the inner values,
and the derived hash feeds exactly the inner value into the hasher
state. -/
theorem C7_eq_ord_hash_passthrough {T σ : Type} (eqT : T → T → Bool)
    (cmpT : T → T → Ordering) (hashT : T → σ → σ) (a b : SerdeStr T)
    (st : σ) :
    (SerdeStr.beq eqT a b = eqT a.value b.value) ∧
    (SerdeStr.cmp cmpT a b = cmpT a.value b.value) ∧
    (SerdeStr.hashWith hashT a st = hashT a.value st) ∧
    (a = b ↔ a.value = b.value) := by
  refine ⟨rfl, rfl, rfl, ?_, ?_⟩
  · intro h; rw [h]
  · intro h; cases a; cases b; simp_all

/-- Claim C8: writing `t` through the mutable accessor and then reading
through the read accessor observes exactly `t`, and the read accessor
returns exactly the stored field with no side effect (it is a total pure
function). -/
theorem C8_transparent_mutation {T : Type} (a : SerdeStr T) (t : T) :
    (a.value_mut_write t).value' = t ∧ a.value' = a.value :=
  ⟨rfl, rfl⟩

/-- Claim C9: `set_value` overwrites the inner value with `t`; afterwards
the inner value is `t`, and the resulting adapter is exactly the adapter of
`t` — independent of the previous state, so the previous value is discarded
and there is no other observable effect. -/
theorem C9_set_value {T : Type} (a : SerdeStr T) (t : T) :
    (a.set_value t).value = t ∧ a.set_value t = { value := t } :=
  ⟨rfl, rfl⟩

/-- Claim C10: whenever the inner type has a default value, the derived
default adapter wraps exactly that default value. -/
theorem C10_default {T : Type} (d : T) :
    (SerdeStr.default' d).value = d :=
  rfl
